import Mathlib

/-!
Verification of the Shomee Spices backend (`src/main.py`) against its
natural-language specification.

The backend is a FastAPI application with endpoints `/`, `/schema`, `/test`,
`GET /products`, `POST /products` and `POST /lead`.  We embed the handlers as
pure Lean functions over an explicit document-store state.  The repository
ships only `main.py`; the `database` and `schemas` modules it imports are not
in the source tree, so those operations are modelled from the specification
(each such definition carries a doc comment starting `Modelled from the
spec:`).
-/

namespace Shomee

/-- A JSON/BSON-style value as it appears in request payloads and stored
documents.  `oid` is a store-assigned ObjectId carried as its hex string;
`strList` covers the only array shape used by the API (`tags`). -/
inductive Value where
  | null
  | bool (b : Bool)
  | num (n : Int)
  | str (s : String)
  | oid (hex : String)
  | strList (xs : List String)
deriving DecidableEq

/-- A document (or payload): an ordered mapping from field names to values,
as a Python dict is for these handlers. -/
abbrev Doc : Type := List (String × Value)

/-- Lookup of a key in a document, first occurrence wins (Python dict read). -/
def dictGet (d : Doc) (k : String) : Option Value :=
  match d with
  | [] => none
  | (k₁, v) :: rest => if k₁ = k then some v else dictGet rest k

/-- Python dict assignment `d[k] = v`: replace the first binding of `k`,
or append a new binding when `k` is absent. -/
def dictSet (d : Doc) (k : String) (v : Value) : Doc :=
  match d with
  | [] => [(k, v)]
  | (k₁, v₁) :: rest => if k₁ = k then (k, v) :: rest else (k₁, v₁) :: dictSet rest k v

/-- Python `str()` applied to a value (as in `str(d.get("_id"))`). -/
def pyStr (v : Value) : String :=
  match v with
  | .null => "None"
  | .bool b => if b then "True" else "False"
  | .num n => toString n
  | .str s => s
  | .oid hex => hex
  | .strList xs => toString xs

/-- Python `str(o)` where `o` is `d.get(k)` and may be `None`. -/
def pyStrOpt (o : Option Value) : String :=
  match o with
  | none => "None"
  | some v => pyStr v

/-! ## The `/test` diagnostic endpoint -/

/-- The observable condition of the document store as seen by the `/test`
handler: the `database` module import may fail (`ImportError` or another
exception), the `db` handle may be `None`, or the handle may be live with
`list_collection_names` either succeeding or raising.  `name` is the
database name attribute when present. -/
inductive DBState where
  | importMissing
  | importFails (e : String)
  | notInitialized
  | ok (name : Option String) (cols : List String)
  | okListFails (name : Option String) (e : String)

/-- The process environment: variable name to value, `none` when unset. -/
def Env : Type := String → Option String

/-- Python truthiness of an `os.getenv` result: a set, non-empty string. -/
def envTruthy (o : Option String) : Bool :=
  match o with
  | none => false
  | some s => s ≠ ""

/-- The JSON body returned by `GET /test`. -/
structure TestResponse where
  backend : String
  database : String
  database_url : String
  database_name : String
  connection_status : String
  collections : List String
deriving DecidableEq

/-- Embedding of the `test_database` handler (`src/main.py` lines 49-88).
It fills a response dict starting from fixed defaults, branches on the store
condition with every exception caught into the `database` string (error text
truncated to 50 characters, as `str(e)[:50]`), unconditionally overwrites
`database_url` / `database_name` from environment-variable truthiness, and
returns HTTP 200 with the body. -/
def test_database (st : DBState) (env : Env) : Nat × TestResponse :=
  let base : TestResponse :=
    ⟨"✅ Running", "❌ Not Available", "None", "None", "Not Connected", []⟩
  let r : TestResponse :=
    match st with
    | .importMissing =>
        { base with database := "❌ Database module not found (run enable-database first)" }
    | .importFails e =>
        { base with database := "❌ Error: " ++ e.take 50 }
    | .notInitialized =>
        { base with database := "⚠️  Available but not initialized" }
    | .ok name cols =>
        { base with
          database := "✅ Connected & Working"
          database_url := "✅ Configured"
          database_name := name.getD "✅ Connected"
          connection_status := "Connected"
          collections := cols.take 10 }
    | .okListFails name e =>
        { base with
          database := "⚠️  Connected but Error: " ++ e.take 50
          database_url := "✅ Configured"
          database_name := name.getD "✅ Connected"
          connection_status := "Connected" }
  (200,
    { r with
      database_url := if envTruthy (env "DATABASE_URL") then "✅ Set" else "❌ Not Set"
      database_name := if envTruthy (env "DATABASE_NAME") then "✅ Set" else "❌ Not Set" })

/-! ## The document store accessor (modelled: `database` module absent) -/

/-- Modelled from the spec: the `database` module (imported by the handlers)
is not in the source tree.  Per §4.3, `list_documents(collection, filter,
limit)` "returns up to `limit` documents matching an equality filter (empty
filter matches all)".  A document matches when every filter binding is
present in it with an equal value. -/
def matchesFilter (filterDict : Doc) (d : Doc) : Bool :=
  filterDict.all (fun kv => dictGet d kv.1 = some kv.2)

/-- Modelled from the spec: `get_documents` of the absent `database` module,
per §4.3 — up to `limit` matching documents in store order.  The collection
argument is implicit: `docs` is the contents of the addressed collection. -/
def get_documents (docs : List Doc) (filterDict : Doc) (limit : Nat) : List Doc :=
  (docs.filter (matchesFilter filterDict)).take limit

/-- Modelled from the spec: the identifier a store insert assigns, "an
opaque store-assigned identifier generated at insertion and never reused"
(§3); we generate it from the collection size. -/
def assignedId (docs : List Doc) : String :=
  "oid" ++ toString docs.length

/-- Modelled from the spec: `create_document` of the absent `database`
module, per §4.3 — "inserts one document, returns its store-assigned
identifier as a string". -/
def create_document (docs : List Doc) (record : Doc) : List Doc × String :=
  let id := assignedId docs
  (docs ++ [dictSet record "_id" (Value.oid id)], id)

/-! ## `GET /products` -/

/-- The `filter_dict` built by `list_products` (`src/main.py` lines 107-111):
`if category:` adds the category key only when the parameter is truthy (set
and non-empty), `if featured is not None:` adds the featured key whenever
the parameter is set. -/
def buildFilter (category : Option String) (featured : Option Bool) : Doc :=
  (match category with
   | some c => if c = "" then [] else [("category", Value.str c)]
   | none => []) ++
  (match featured with
   | some b => [("featured", Value.bool b)]
   | none => [])

/-- The identifier rewrite `d["_id"] = str(d.get("_id"))` applied to each
returned document (`src/main.py` lines 114-115). -/
def fixId (d : Doc) : Doc :=
  dictSet d "_id" (Value.str (pyStrOpt (dictGet d "_id")))

/-- Embedding of the `list_products` handler (`src/main.py` lines 104-116):
build the equality filter, fetch up to `limit` matching documents, rewrite
each `_id` to its string form. -/
def list_products (category : Option String) (featured : Option Bool)
    (limit : Nat) (docs : List Doc) : List Doc :=
  (get_documents docs (buildFilter category featured) limit).map fixId

/-- The `GET /products` route around the handler: the `limit` query
parameter is optional and defaults to 50 (`limit: int = 50`). -/
def listProductsRoute (category : Option String) (featured : Option Bool)
    (limit : Option Nat) (docs : List Doc) : List Doc :=
  list_products category featured (limit.getD 50) docs

/-! ## Request-body parsing (pydantic models in `src/main.py`) -/

/-- Field access for a required `str` field: present with a string value. -/
def reqStr (p : Doc) (k : String) : Option String :=
  match dictGet p k with
  | some (.str s) => some s
  | _ => none

/-- Field access for a required `float` field: present with a numeric value. -/
def reqNum (p : Doc) (k : String) : Option Int :=
  match dictGet p k with
  | some (.num n) => some n
  | _ => none

/-- Field access for an `Optional[str] = None` field: absent or null gives
`None`, a string gives the string, anything else fails validation. -/
def optStrField (p : Doc) (k : String) : Option (Option String) :=
  match dictGet p k with
  | none => some none
  | some .null => some none
  | some (.str s) => some (some s)
  | some _ => none

/-- Field access for a `bool = default` field: absent gives the default,
a boolean gives the boolean, anything else fails validation. -/
def boolFieldD (p : Doc) (k : String) (dflt : Bool) : Option Bool :=
  match dictGet p k with
  | none => some dflt
  | some (.bool b) => some b
  | some _ => none

/-- Field access for an `Optional[List[str]] = None` field. -/
def optStrListField (p : Doc) (k : String) : Option (Option (List String)) :=
  match dictGet p k with
  | none => some none
  | some .null => some none
  | some (.strList xs) => some (some xs)
  | some _ => none

/-- Back to a dumped value: `None` becomes null, a string stays a string. -/
def optStrVal (o : Option String) : Value :=
  match o with
  | none => .null
  | some s => .str s

/-- The `ProductIn` pydantic model (`src/main.py` lines 92-101). -/
structure ProductIn where
  title : String
  description : Option String
  price : Int
  category : String
  in_stock : Bool
  image_url : Option String
  buy_url : Option String
  featured : Bool
  tags : Option (List String)
deriving DecidableEq

/-- FastAPI body validation for `POST /products`: parse the JSON payload
into a `ProductIn`, `none` when validation fails (missing/ill-typed
required field), in which case FastAPI answers 422 before the handler. -/
def parseProductIn (p : Doc) : Option ProductIn :=
  match reqStr p "title", optStrField p "description", reqNum p "price",
        reqStr p "category", boolFieldD p "in_stock" true,
        optStrField p "image_url", optStrField p "buy_url",
        boolFieldD p "featured" false, optStrListField p "tags" with
  | some t, some d, some pr, some c, some st, some iu, some bu, some f, some tg =>
      some ⟨t, d, pr, c, st, iu, bu, f, tg⟩
  | _, _, _, _, _, _, _, _, _ => none

/-- `payload.model_dump()` for a `ProductIn`. -/
def ProductIn.dump (x : ProductIn) : Doc :=
  [("title", .str x.title),
   ("description", optStrVal x.description),
   ("price", .num x.price),
   ("category", .str x.category),
   ("in_stock", .bool x.in_stock),
   ("image_url", optStrVal x.image_url),
   ("buy_url", optStrVal x.buy_url),
   ("featured", .bool x.featured),
   ("tags", match x.tags with | none => Value.null | some xs => Value.strList xs)]

/-- Modelled from the spec: the canonical `Product` schema of the absent
`schemas` module, used for re-validation in the handler; per §3 and §4.2 it
checks presence and primitive type of the required fields (title, price,
category), types of optional/defaulted fields. -/
def validateProductSchema (d : Doc) : Bool :=
  (reqStr d "title").isSome && (optStrField d "description").isSome &&
  (reqNum d "price").isSome && (reqStr d "category").isSome &&
  (boolFieldD d "in_stock" true).isSome && (optStrField d "image_url").isSome &&
  (optStrField d "buy_url").isSome && (boolFieldD d "featured" false).isSome &&
  (optStrListField d "tags").isSome

/-- The outcome of a POST endpoint: HTTP status, the `id` / `message` body
fields when present, and the state of the written collection afterwards. -/
structure PostResult where
  status : Nat
  id : Option String
  message : Option String
  store : List Doc
deriving DecidableEq

/-- Embedding of `POST /products` (`src/main.py` lines 119-127) together
with FastAPI's body validation: an invalid payload is rejected with 422
before the handler runs, so the store is untouched; a valid payload is
re-validated against the canonical schema and then inserted once. -/
def create_product (docs : List Doc) (payload : Doc) : PostResult :=
  match parseProductIn payload with
  | none => ⟨422, none, none, docs⟩
  | some x =>
      if validateProductSchema x.dump then
        let r := create_document docs x.dump
        ⟨201, some r.2, none, r.1⟩
      else ⟨422, none, none, docs⟩

/-! ## `POST /lead` -/

/-- The `LeadIn` pydantic model (`src/main.py` lines 130-134).  `source` is
`Optional[str] = "website"`: `none` here is an explicit JSON null. -/
structure LeadIn where
  name : String
  email : String
  message : Option String
  source : Option String
deriving DecidableEq

/-- Field access for the `source: Optional[str] = "website"` field: absent
gives the default `"website"`, an explicit null gives `None`, a string
gives the string, anything else fails validation. -/
def sourceField (p : Doc) : Option (Option String) :=
  match dictGet p "source" with
  | none => some (some "website")
  | some .null => some none
  | some (.str s) => some (some s)
  | some _ => none

/-- FastAPI body validation for `POST /lead`: parse the JSON payload into a
`LeadIn`, `none` when validation fails (422 before the handler runs). -/
def parseLeadIn (p : Doc) : Option LeadIn :=
  match reqStr p "name", reqStr p "email", optStrField p "message", sourceField p with
  | some n, some e, some m, some s => some ⟨n, e, m, s⟩
  | _, _, _, _ => none

/-- `payload.model_dump()` for a `LeadIn`. -/
def LeadIn.dump (x : LeadIn) : Doc :=
  [("name", .str x.name),
   ("email", .str x.email),
   ("message", optStrVal x.message),
   ("source", optStrVal x.source)]

/-- Modelled from the spec: the canonical `Lead` schema of the absent
`schemas` module; per §3 name and email are required text, message is
optional text, and source is text with default "website" (mirroring the
in-source `LeadIn`, where it is optional). -/
def validateLeadSchema (d : Doc) : Bool :=
  (reqStr d "name").isSome && (reqStr d "email").isSome &&
  (optStrField d "message").isSome && (optStrField d "source").isSome

/-- Embedding of `POST /lead` (`src/main.py` lines 137-144) with FastAPI's
body validation: validate, re-validate against the canonical schema, insert
once, answer 201 with the new identifier and a fixed acknowledgement. -/
def create_lead (docs : List Doc) (payload : Doc) : PostResult :=
  match parseLeadIn payload with
  | none => ⟨422, none, none, docs⟩
  | some x =>
      if validateLeadSchema x.dump then
        let r := create_document docs x.dump
        ⟨201, some r.2, some "Thanks for reaching out!", r.1⟩
      else ⟨422, none, none, docs⟩

/-! ## `GET /schema` -/

/-- A rendered JSON schema for one entity: its title, the property names
with a type descriptor each, and the required-property list. -/
structure JsonSchema where
  title : String
  properties : List (String × String)
  required : List String
deriving DecidableEq

/-- Modelled from the spec: `User.model_json_schema()` — the `schemas`
module is absent and §3 says User is "referenced only for schema
introspection" without listing its fields, so its property set is left
empty. -/
def userSchema : JsonSchema :=
  ⟨"User", [], []⟩

/-- Modelled from the spec: `Product.model_json_schema()` for the absent
`schemas` module, fields per §3. -/
def productSchema : JsonSchema :=
  ⟨"Product",
   [("title", "string"), ("description", "string or null"), ("price", "number"),
    ("category", "string"), ("in_stock", "boolean"), ("image_url", "string or null"),
    ("buy_url", "string or null"), ("featured", "boolean"),
    ("tags", "array of string, or null")],
   ["title", "price", "category"]⟩

/-- Modelled from the spec: `Lead.model_json_schema()` for the absent
`schemas` module, fields per §3. -/
def leadSchema : JsonSchema :=
  ⟨"Lead",
   [("name", "string"), ("email", "string"), ("message", "string or null"),
    ("source", "string, default website")],
   ["name", "email"]⟩

/-- Embedding of the `get_schema` handler (`src/main.py` lines 38-46): a
dict with exactly the keys `user`, `product`, `lead`. -/
def get_schema : List (String × JsonSchema) :=
  [("user", userSchema), ("product", productSchema), ("lead", leadSchema)]

/-! ## Concrete fixtures used by witnesses and counterexamples -/

/-- A stored product document in the "Spices" category, featured. -/
def spiceDoc : Doc :=
  [("_id", Value.oid "a1"), ("category", Value.str "Spices"), ("featured", Value.bool true)]

/-- A stored product document in the "Tea" category, not featured. -/
def teaDoc : Doc :=
  [("_id", Value.oid "a2"), ("category", Value.str "Tea"), ("featured", Value.bool false)]

/-- A product payload that is missing the required `title` field. -/
def missingTitlePayload : Doc :=
  [("price", Value.num 5), ("category", Value.str "Spices")]

/-- The example lead payload of the spec, without `source` or `message`. -/
def annPayload : Doc :=
  [("name", Value.str "Ann"), ("email", Value.str "ann@example.com")]

/-- The example lead payload with an explicit `"source": null`. -/
def annNullPayload : Doc :=
  [("name", Value.str "Ann"), ("email", Value.str "ann@example.com"),
   ("source", Value.null)]

/-- The parsed `LeadIn` for `annPayload`. -/
def annLead : LeadIn :=
  ⟨"Ann", "ann@example.com", none, some "website"⟩

/-- An environment with `DATABASE_URL` set to the empty string. -/
def envEmptyUrl : Env :=
  fun k => if k = "DATABASE_URL" then some "" else none

/-- An environment with `DATABASE_URL` set to a connection string. -/
def envFullUrl : Env :=
  fun k => if k = "DATABASE_URL" then some "mongodb://localhost" else none

/-- An environment with nothing set. -/
def envUnset : Env :=
  fun _ => none

/-! ## Association-list lemmas -/

theorem dictGet_dictSet_self (d : Doc) (k : String) (v : Value) :
    dictGet (dictSet d k v) k = some v := by
  induction d with
  | nil => simp [dictGet, dictSet]
  | cons hd tl ih =>
    obtain ⟨k₁, v₁⟩ := hd
    by_cases h : k₁ = k
    · simp [dictGet, dictSet, h]
    · simp [dictGet, dictSet, h, ih]

theorem dictGet_dictSet_ne (d : Doc) (k k₂ : String) (v : Value) (h : k₂ ≠ k) :
    dictGet (dictSet d k v) k₂ = dictGet d k₂ := by
  induction d with
  | nil => simp [dictGet, dictSet, Ne.symm h]
  | cons hd tl ih =>
    obtain ⟨k₁, v₁⟩ := hd
    by_cases h₁ : k₁ = k
    · subst h₁
      simp [dictGet, dictSet, Ne.symm h]
    · simp only [dictGet, dictSet, if_neg h₁]
      by_cases h₂ : k₁ = k₂ <;> simp [dictGet, h₂, ih]

/-! ## Claim C1: validation failure on `POST /products` -/

/-- C1: for every Product payload that fails validation, `POST /products`
returns HTTP 422 and performs no store write — the store state is returned
unchanged. -/
theorem create_product_invalid_is_422_no_write (docs : List Doc) (p : Doc)
    (h : parseProductIn p = none) :
    create_product docs p = ⟨422, none, none, docs⟩ := by
  simp [create_product, h]

/-- Witness for C1 at a payload missing the required `title` field. -/
theorem create_product_invalid_is_422_no_write_witness :
    parseProductIn missingTitlePayload = none ∧
    create_product [spiceDoc] missingTitlePayload = ⟨422, none, none, [spiceDoc]⟩ :=
  ⟨by decide, create_product_invalid_is_422_no_write [spiceDoc] missingTitlePayload (by decide)⟩

/-! ## Claim C3: `GET /test` is total and downgrades every failure -/

/-- C3: `GET /test` returns HTTP 200 for every store state, and every
internal failure (module missing, import raising, handle uninitialized,
collection listing raising) is converted into a descriptive string in the
`database` field of the body, truncated to 50 characters where an exception
message is embedded. -/
theorem test_database_always_200_catches_errors (st : DBState) (env : Env) :
    (test_database st env).1 = 200 ∧
    (test_database DBState.importMissing env).2.database
      = "❌ Database module not found (run enable-database first)" ∧
    (∀ e, (test_database (DBState.importFails e) env).2.database
      = "❌ Error: " ++ e.take 50) ∧
    (test_database DBState.notInitialized env).2.database
      = "⚠️  Available but not initialized" ∧
    (∀ name e, (test_database (DBState.okListFails name e) env).2.database
      = "⚠️  Connected but Error: " ++ e.take 50) ∧
    (∀ name cols, (test_database (DBState.ok name cols) env).2.database
      = "✅ Connected & Working") := by
  refine ⟨?_, rfl, fun e => rfl, rfl, fun name e => rfl, fun name cols => rfl⟩
  cases st <;> rfl

/-! ## Claim C8: `GET /schema` keys -/

/-- C8: `GET /schema` returns an object with exactly the keys `user`,
`product`, `lead`, each mapped to the JSON schema of that entity. -/
theorem get_schema_exact_keys :
    get_schema.map Prod.fst = ["user", "product", "lead"] ∧
    get_schema.lookup "user" = some userSchema ∧
    get_schema.lookup "product" = some productSchema ∧
    get_schema.lookup "lead" = some leadSchema := by
  refine ⟨rfl, ?_, ?_, ?_⟩ <;> rfl

/-! ## Claim C9: `GET /test` env reporting -/

/-- C9 counterexample: two environments that both have `DATABASE_URL` set
(one to the empty string, one to a connection string) receive different
`database_url` fields, so the field does not depend only on set-ness. -/
theorem env_flag_value_counterexample :
    (envEmptyUrl "DATABASE_URL").isSome = true ∧
    (envFullUrl "DATABASE_URL").isSome = true ∧
    (test_database DBState.importMissing envEmptyUrl).2.database_url
      ≠ (test_database DBState.importMissing envFullUrl).2.database_url := by
  refine ⟨rfl, rfl, ?_⟩
  decide

/-- C9 (amended): the `database_url` / `database_name` fields depend only
on the truthiness of the corresponding environment variable — set to a
non-empty string — and are always one of the two fixed flag strings, never
the raw value; a variable set to the empty string is reported as unset. -/
theorem env_presence_flags_only (st st₂ : DBState) (env env₂ : Env)
    (hu : envTruthy (env "DATABASE_URL") = envTruthy (env₂ "DATABASE_URL"))
    (hn : envTruthy (env "DATABASE_NAME") = envTruthy (env₂ "DATABASE_NAME")) :
    (test_database st env).2.database_url = (test_database st₂ env₂).2.database_url ∧
    (test_database st env).2.database_name = (test_database st₂ env₂).2.database_name ∧
    ((test_database st env).2.database_url = "✅ Set" ∨
      (test_database st env).2.database_url = "❌ Not Set") ∧
    ((test_database st env).2.database_name = "✅ Set" ∨
      (test_database st env).2.database_name = "❌ Not Set") := by
  refine ⟨?_, ?_, ?_, ?_⟩
  · simp [test_database, hu]
  · simp [test_database, hn]
  · by_cases h : envTruthy (env "DATABASE_URL") = true <;> simp [test_database, h]
  · by_cases h : envTruthy (env "DATABASE_NAME") = true <;> simp [test_database, h]

/-- Witness for C9 (amended): an environment with `DATABASE_URL=""` and a
fully unset environment agree on truthiness and get the same field. -/
theorem env_presence_flags_only_witness :
    envTruthy (envEmptyUrl "DATABASE_URL") = envTruthy (envUnset "DATABASE_URL") ∧
    envTruthy (envEmptyUrl "DATABASE_NAME") = envTruthy (envUnset "DATABASE_NAME") ∧
    (test_database DBState.importMissing envEmptyUrl).2.database_url
      = (test_database DBState.notInitialized envUnset).2.database_url :=
  ⟨by decide, by decide,
    (env_presence_flags_only DBState.importMissing DBState.notInitialized
      envEmptyUrl envUnset (by decide) (by decide)).1⟩

/-! ## Claim C2: the `GET /products` equality filter -/

/-- C2 counterexample: with the category parameter non-null but equal to
the empty string (`?category=`), the filter passed to the store does not
contain the key `category` (Python truthiness drops it), and consequently a
document of a different category is returned. -/
theorem category_truthiness_counterexample :
    ¬ (((dictGet (buildFilter (some "") none) "category").isSome)
        ↔ ((some "" : Option String).isSome)) ∧
    fixId teaDoc ∈ list_products (some "") none 50 [teaDoc] := by
  constructor
  · decide
  · decide

/-- C2 (amended): the filter passed to the store contains `category` iff
the category parameter is non-null and non-empty, and `featured` iff the
featured parameter is non-null; every document returned matches each
supplied filter binding exactly. -/
theorem list_products_filter_semantics (cat : Option String) (feat : Option Bool)
    (lim : Nat) (docs : List Doc) :
    (dictGet (buildFilter cat feat) "category"
      = cat.bind (fun c => if c = "" then none else some (Value.str c))) ∧
    (dictGet (buildFilter cat feat) "featured" = feat.map Value.bool) ∧
    (∀ d ∈ list_products cat feat lim docs, ∀ c, cat = some c → c ≠ "" →
      dictGet d "category" = some (Value.str c)) ∧
    (∀ d ∈ list_products cat feat lim docs, ∀ b, feat = some b →
      dictGet d "featured" = some (Value.bool b)) := by
  refine ⟨?_, ?_, ?_, ?_⟩
  · cases cat with
    | none => cases feat <;> simp [buildFilter, dictGet]
    | some c =>
      by_cases hc : c = "" <;> cases feat <;> simp [buildFilter, dictGet, hc]
  · cases cat with
    | none => cases feat <;> simp [buildFilter, dictGet]
    | some c =>
      by_cases hc : c = "" <;> cases feat <;> simp [buildFilter, dictGet, hc]
  · intro d hd c hc hne
    subst hc
    obtain ⟨d₀, hd₀, rfl⟩ := List.mem_map.mp hd
    have h₁ : d₀ ∈ docs.filter (matchesFilter (buildFilter (some c) feat)) :=
      List.mem_of_mem_take hd₀
    have h₂ := (List.mem_filter.mp h₁).2
    have hmem : ("category", Value.str c) ∈ buildFilter (some c) feat := by
      simp [buildFilter, hne]
    have h₃ := List.all_eq_true.mp h₂ _ hmem
    have h₄ : dictGet d₀ "category" = some (Value.str c) := by
      simpa using h₃
    rw [fixId, dictGet_dictSet_ne _ _ _ _ (by decide)]
    exact h₄
  · intro d hd b hb
    subst hb
    obtain ⟨d₀, hd₀, rfl⟩ := List.mem_map.mp hd
    have h₁ : d₀ ∈ docs.filter (matchesFilter (buildFilter cat (some b))) :=
      List.mem_of_mem_take hd₀
    have h₂ := (List.mem_filter.mp h₁).2
    have hmem : ("featured", Value.bool b) ∈ buildFilter cat (some b) := by
      cases cat with
      | none => simp [buildFilter]
      | some c => by_cases hc : c = "" <;> simp [buildFilter, hc]
    have h₃ := List.all_eq_true.mp h₂ _ hmem
    have h₄ : dictGet d₀ "featured" = some (Value.bool b) := by
      simpa using h₃
    rw [fixId, dictGet_dictSet_ne _ _ _ _ (by decide)]
    exact h₄

/-- Witness for C2 (amended): with both filters supplied, the returned
Spices document matches both bindings. -/
theorem list_products_filter_semantics_witness :
    fixId spiceDoc ∈ list_products (some "Spices") (some true) 50 [spiceDoc, teaDoc] ∧
    ("Spices" : String) ≠ "" ∧
    dictGet (fixId spiceDoc) "category" = some (Value.str "Spices") ∧
    dictGet (fixId spiceDoc) "featured" = some (Value.bool true) :=
  ⟨by decide, by decide,
    (list_products_filter_semantics (some "Spices") (some true) 50
      [spiceDoc, teaDoc]).2.2.1 (fixId spiceDoc) (by decide) "Spices" rfl (by decide),
    (list_products_filter_semantics (some "Spices") (some true) 50
      [spiceDoc, teaDoc]).2.2.2 (fixId spiceDoc) (by decide) true rfl⟩

/-! ## Claim C4: the `limit` parameter -/

/-- C4: `GET /products` returns at most `limit` documents; the parameter
defaults to 50 when omitted, and a supplied value is passed to the store
unchanged — no upper bound is enforced. -/
theorem list_products_limit_bound (cat : Option String) (feat : Option Bool)
    (lim : Option Nat) (docs : List Doc) :
    (listProductsRoute cat feat lim docs).length ≤ lim.getD 50 ∧
    listProductsRoute cat feat none docs = list_products cat feat 50 docs ∧
    (∀ n, listProductsRoute cat feat (some n) docs = list_products cat feat n docs) := by
  refine ⟨?_, rfl, fun n => rfl⟩
  simp only [listProductsRoute, list_products, get_documents, List.length_map]
  simp [List.length_take]

/-! ## Claim C5: returned identifiers are strings -/

/-- C5: every document returned by `GET /products` has a string-typed `_id`
field — the handler rewrites each identifier to its string form. -/
theorem list_products_id_is_string (cat : Option String) (feat : Option Bool)
    (lim : Nat) (docs : List Doc) (d : Doc)
    (hd : d ∈ list_products cat feat lim docs) :
    ∃ s, dictGet d "_id" = some (Value.str s) := by
  obtain ⟨d₀, _, rfl⟩ := List.mem_map.mp hd
  exact ⟨pyStrOpt (dictGet d₀ "_id"), dictGet_dictSet_self _ _ _⟩

/-- Witness for C5 at a store whose document holds an ObjectId `_id`. -/
theorem list_products_id_is_string_witness :
    fixId spiceDoc ∈ list_products none none 50 [spiceDoc] ∧
    ∃ s, dictGet (fixId spiceDoc) "_id" = some (Value.str s) :=
  ⟨by decide,
    list_products_id_is_string none none 50 [spiceDoc] (fixId spiceDoc) (by decide)⟩

/-! ## Lead-endpoint lemmas shared by C6, C7, C10 -/

/-- The dump of any parsed `LeadIn` passes the canonical Lead schema, so
the handler's re-validation step never rejects a payload FastAPI accepted. -/
theorem validateLeadSchema_dump (x : LeadIn) : validateLeadSchema x.dump = true := by
  obtain ⟨n, e, m, s⟩ := x
  cases m <;> cases s <;>
    simp [validateLeadSchema, LeadIn.dump, reqStr, optStrField, optStrVal, dictGet]

/-- Inversion of `parseLeadIn`: a successful parse pins each field to the
corresponding field access on the payload. -/
theorem parseLeadIn_inv (p : Doc) (x : LeadIn) (h : parseLeadIn p = some x) :
    reqStr p "name" = some x.name ∧ reqStr p "email" = some x.email ∧
    optStrField p "message" = some x.message ∧ sourceField p = some x.source := by
  unfold parseLeadIn at h
  split at h
  · obtain rfl := Option.some.inj h
    simp_all
  · exact absurd h (by simp)

/-- On a successful parse, `create_lead` inserts exactly the dumped record
(with the store-assigned identifier) and answers 201. -/
theorem create_lead_success_shape (docs : List Doc) (p : Doc) (x : LeadIn)
    (h : parseLeadIn p = some x) :
    create_lead docs p =
      ⟨201, some (assignedId docs), some "Thanks for reaching out!",
        docs ++ [dictSet x.dump "_id" (Value.oid (assignedId docs))]⟩ := by
  simp [create_lead, h, validateLeadSchema_dump, create_document]

/-! ## Claim C6: `POST /lead` success response -/

/-- C6: for every valid Lead payload, `POST /lead` returns HTTP 201 with
the store-assigned identifier as a string and the fixed acknowledgement
message. -/
theorem create_lead_valid_201_message (docs : List Doc) (p : Doc) (x : LeadIn)
    (h : parseLeadIn p = some x) :
    (create_lead docs p).status = 201 ∧
    (create_lead docs p).id = some (assignedId docs) ∧
    (create_lead docs p).message = some "Thanks for reaching out!" := by
  rw [create_lead_success_shape docs p x h]
  exact ⟨rfl, rfl, rfl⟩

/-- Witness for C6 at the spec's example payload. -/
theorem create_lead_valid_201_message_witness :
    parseLeadIn annPayload = some annLead ∧
    (create_lead [] annPayload).status = 201 ∧
    (create_lead [] annPayload).id = some (assignedId []) ∧
    (create_lead [] annPayload).message = some "Thanks for reaching out!" :=
  ⟨by decide, create_lead_valid_201_message [] annPayload annLead (by decide)⟩

/-! ## Claim C7: default `source` -/

/-- C7: for every valid Lead payload with no `source` field, `POST /lead`
persists a record whose `source` equals "website". -/
theorem create_lead_default_source_website (docs : List Doc) (p : Doc) (x : LeadIn)
    (h : parseLeadIn p = some x) (hs : dictGet p "source" = none) :
    (create_lead docs p).store
      = docs ++ [dictSet x.dump "_id" (Value.oid (assignedId docs))] ∧
    dictGet (dictSet x.dump "_id" (Value.oid (assignedId docs))) "source"
      = some (Value.str "website") := by
  have hx : x.source = some "website" := by
    have h₁ := (parseLeadIn_inv p x h).2.2.2
    rw [sourceField, hs] at h₁
    exact (Option.some.inj h₁).symm
  constructor
  · rw [create_lead_success_shape docs p x h]
  · rw [dictGet_dictSet_ne _ _ _ _ (by decide)]
    simp [LeadIn.dump, dictGet, hx, optStrVal]

/-- Witness for C7 at the spec's example payload, which has no `source`. -/
theorem create_lead_default_source_website_witness :
    parseLeadIn annPayload = some annLead ∧
    dictGet annPayload "source" = none ∧
    ((create_lead [] annPayload).store
        = [] ++ [dictSet annLead.dump "_id" (Value.oid (assignedId []))] ∧
      dictGet (dictSet annLead.dump "_id" (Value.oid (assignedId []))) "source"
        = some (Value.str "website")) :=
  ⟨by decide, by decide,
    create_lead_default_source_website [] annPayload annLead (by decide) (by decide)⟩

/-! ## Claim C10: explicit `"source": null` -/

/-- C10: a Lead payload carrying an explicit null `source` validates
successfully, and the persisted record's `source` is null, not the default
"website" — the default applies only when the field is absent. -/
theorem create_lead_explicit_null_source (docs : List Doc) (p : Doc) (x : LeadIn)
    (h : parseLeadIn p = some x) (hs : dictGet p "source" = some Value.null) :
    (create_lead docs p).status = 201 ∧
    (create_lead docs p).store
      = docs ++ [dictSet x.dump "_id" (Value.oid (assignedId docs))] ∧
    dictGet (dictSet x.dump "_id" (Value.oid (assignedId docs))) "source"
      = some Value.null := by
  have hx : x.source = none := by
    have h₁ := (parseLeadIn_inv p x h).2.2.2
    rw [sourceField, hs] at h₁
    exact (Option.some.inj h₁).symm
  refine ⟨?_, ?_, ?_⟩
  · rw [create_lead_success_shape docs p x h]
  · rw [create_lead_success_shape docs p x h]
  · rw [dictGet_dictSet_ne _ _ _ _ (by decide)]
    simp [LeadIn.dump, dictGet, hx, optStrVal]

/-- Witness for C10 at the example payload with `"source": null`. -/
theorem create_lead_explicit_null_source_witness :
    parseLeadIn annNullPayload = some ⟨"Ann", "ann@example.com", none, none⟩ ∧
    dictGet annNullPayload "source" = some Value.null ∧
    ((create_lead [] annNullPayload).status = 201 ∧
      (create_lead [] annNullPayload).store
        = [] ++ [dictSet (LeadIn.dump ⟨"Ann", "ann@example.com", none, none⟩)
            "_id" (Value.oid (assignedId []))] ∧
      dictGet (dictSet (LeadIn.dump ⟨"Ann", "ann@example.com", none, none⟩)
          "_id" (Value.oid (assignedId []))) "source" = some Value.null) :=
  ⟨by decide, by decide,
    create_lead_explicit_null_source [] annNullPayload
      ⟨"Ann", "ann@example.com", none, none⟩ (by decide) (by decide)⟩

end Shomee
